import Mathlib

/-!
# Verification of the site-to-markdown service (src/main.py)

A shallow embedding of the fetch-decode-convert pipeline of src/main.py.
External collaborators (the requests HTTP client, the chardet detector, the
MarkItDown converter, percent-decoding) are passed in as explicit oracles, so
every definition stays executable; the control flow, string manipulation,
error classification and resource bookkeeping are translated line by line
from the source.
-/

set_option autoImplicit false

namespace SiteToMarkdown

/-- Configuration constant from src/main.py line 22: HTTP request timeout in seconds. -/
def REQUEST_TIMEOUT : Nat := 30

/-- Configuration constant from src/main.py line 23: conversion timeout in seconds. -/
def CONVERSION_TIMEOUT : Nat := 25

/-- Configuration constant from src/main.py line 24: maximum content size (10 MiB). -/
def MAX_CONTENT_SIZE : Nat := 10 * 1024 * 1024

/-- A byte of downloaded content. -/
abbrev Byte := Nat

/-- One chunk yielded by response.iter_content(chunk_size=8192). -/
abbrev Chunk := List Byte

/-- The pattern occurs as a contiguous run somewhere in the list. -/
def containsSeq (pat : List Char) : List Char → Bool
  | [] => pat.isPrefixOf []
  | c :: t => pat.isPrefixOf (c :: t) || containsSeq pat t

/-- Python's substring test, as the source writes it in the expressions
testing whether content_type contains a given literal: the pattern occurs
contiguously somewhere in the string (Python strings are sequences of code
points, so the character-list reading is the faithful one). -/
def pyContains (s pat : String) : Bool :=
  containsSeq pat.data s.data

/-- Python's str.startswith: the pattern's characters are an initial segment
of the string's characters. -/
def pyStartsWith (s pat : String) : Bool :=
  pat.data.isPrefixOf s.data

/-- Python's str.split for a nonempty separator, scanning left to right and
cutting at every non-overlapping occurrence: on a match the piece gathered
so far is emitted and the matched characters are consumed (the skip counter
carries how many matched characters are still to be dropped); the remainder
after the last match becomes the final piece. -/
def pySplitAux (pat : List Char) : List Char → Nat → List Char → List (List Char)
  | [], _, acc => [acc.reverse]
  | _ :: t, skip + 1, acc => pySplitAux pat t skip acc
  | c :: t, 0, acc =>
    if pat.isPrefixOf (c :: t) && !pat.isEmpty then
      acc.reverse :: pySplitAux pat t (pat.length - 1) []
    else pySplitAux pat t 0 (c :: acc)

/-- Python's str.split on strings. -/
def pySplit (s pat : String) : List String :=
  (pySplitAux pat.data s.data 0 []).map fun l => ⟨l⟩

/-- Python's str.strip(): leading and trailing whitespace removed. -/
def pyStrip (s : String) : String :=
  ⟨((s.data.dropWhile Char.isWhitespace).reverse.dropWhile Char.isWhitespace).reverse⟩

/-- The three well-known nuisance paths short-circuited at src/main.py line 59. -/
def NUISANCE_PATHS : List String := ["favicon.ico", "robots.txt", "sitemap.xml"]

/-- The static welcome body returned for an empty request path (src/main.py lines 48-52). -/
def WELCOME_TEXT : String :=
  "Welcome to URL to Markdown API\nUsage: https://markdown.nimk.ir/YOUR_URL"

/-- The message of the ValueError raised when the streamed content exceeds
MAX_CONTENT_SIZE (src/main.py line 104); the Python f-string renders
MAX_CONTENT_SIZE / 1024 / 1024 as the float literal 10.0. -/
def SIZE_LIMIT_MSG : String := "Content size exceeds maximum limit (10.0 MB)"

/-- URL normalization, src/main.py lines 69-73: an input without an explicit
scheme gets https:// prepended when it already starts with www., and
https://www. otherwise; inputs that already carry a scheme pass unchanged. -/
def normalizeUrl (decoded_url : String) : String :=
  if !(pyStartsWith decoded_url "http://" || pyStartsWith decoded_url "https://") then
    if pyStartsWith decoded_url "www." then "https://" ++ decoded_url
    else "https://www." ++ decoded_url
  else decoded_url

/-- The netloc (authority) component that Python's urlparse extracts,
restricted to strings carrying an explicit http:// or https:// scheme — the
only shape _run ever parses, because normalizeUrl always yields such a string
(lemma normalizeUrl_has_scheme below).  urlparse takes the netloc to be
everything after the // up to the first of the three characters slash,
question mark or hash. -/
def netlocOf (s : String) : String :=
  if pyStartsWith s "http://" then
    ⟨(s.data.drop 7).takeWhile fun c => !(c == '/' || c == '?' || c == '#')⟩
  else if pyStartsWith s "https://" then
    ⟨(s.data.drop 8).takeWhile fun c => !(c == '/' || c == '?' || c == '#')⟩
  else ""

/-- The chunked read loop of _run, src/main.py lines 100-104: chunks are
appended to the running buffer and the moment the buffer length exceeds
MAX_CONTENT_SIZE a ValueError with SIZE_LIMIT_MSG is raised. -/
def readContent : List Chunk → List Byte → Except String (List Byte)
  | [], content => .ok content
  | chunk :: rest, content =>
    if (content ++ chunk).length > MAX_CONTENT_SIZE then .error SIZE_LIMIT_MSG
    else readContent rest (content ++ chunk)

/-- Total number of bytes carried by a list of chunks. -/
def totalLen (chunks : List Chunk) : Nat :=
  (chunks.map List.length).sum

/-- Outcome of the chardet.detect call at src/main.py line 124: the call
either raises (swallowed by the bare except at line 126) or returns its
result dictionary, whose mandatory key named encoding holds either a codec
name or Python's None when detection yields nothing. -/
inductive DetectOutcome where
  | raised
  | returned (encoding : Option String)
  deriving Repr, DecidableEq

/-- Character-encoding resolution for HTML content, src/main.py lines
118-127.  The local variable starts as utf-8; a charset= parameter in the
content-type overwrites it with the text after the last occurrence of
charset= (stripped); otherwise chardet runs and the dictionary value under
the key named encoding overwrites it — that value is None when chardet
detects nothing, and the utf-8 default of dict.get never applies because the
key is always present; only an exception from chardet leaves utf-8 in
place.  The result is therefore an optional codec name, none standing for
Python's None. -/
def resolveEncoding (content_type : String) (detected : DetectOutcome) : Option String :=
  if pyContains content_type "charset=" then
    some (pyStrip ((pySplit content_type "charset=").getLastD ""))
  else
    match detected with
    | .raised => some "utf-8"
    | .returned e => e

/-- Errors surfaced by the MarkItDown converter oracle: its two documented
exception classes, plus anything else it might raise. -/
inductive ConvErr where
  | unsupportedFormat (msg : String)
  | fileConversion (msg : String)
  | other (msg : String)
  deriving Repr, DecidableEq

/-- The MarkItDown converter as an oracle: convert_local takes a file path,
convert_stream takes the raw byte buffer; both yield the text content or
raise one of the ConvErr classes. -/
structure Converter where
  convertLocal : String → Except ConvErr String
  convertStream : List Byte → Except ConvErr String

/-- The Python exception classes distinguished by the except chain of
convert_url (src/main.py lines 157-186). -/
inductive PyError where
  | valueError (msg : String)
  | typeError (msg : String)
  | lookupError (msg : String)
  | requestException (msg : String)
  | unsupportedFormatException (msg : String)
  | fileConversionException (msg : String)
  | timeoutError
  | otherException (msg : String)
  deriving Repr, DecidableEq

/-- Converter exceptions propagate into the pipeline as the corresponding
Python exception classes. -/
def convErrToPy : ConvErr → PyError
  | .unsupportedFormat m => .unsupportedFormatException m
  | .fileConversion m => .fileConversionException m
  | .other m => .otherException m

/-- What the requests session.get call at src/main.py line 96 produced when
it did not itself raise: the declared content-type header (None when the
server sent none — headers.get supplies the default), whether
raise_for_status raises (some message for a non-2xx status), and the chunks
the body streams. -/
structure FetchResponse where
  contentTypeHeader : Option String
  statusError : Option String
  chunks : List Chunk

/-- Environment of one fetch: the outcome of session.get (error means a
requests.RequestException: DNS, connection, TLS or timeout failure) and the
operating-system-chosen base name for a temporary file, to which tempfile
appends the requested .html suffix. -/
structure FetchEnv where
  result : Except String FetchResponse
  tmpBase : String

/-- Observable side effects of one pipeline run: whether session.get was
invoked, how many temporary files were created, how many of them were still
on disk when control returned, the path handed to convert_local (if it was
called) and the buffer handed to convert_stream (if it was called). -/
structure Trace where
  fetchAttempted : Bool
  tempFilesCreated : Nat
  tempFilesLeaked : Nat
  localPath : Option String
  streamArg : Option (List Byte)
  deriving Repr, DecidableEq

/-- The trace of a run that performed no fetch and touched no file. -/
def emptyTrace : Trace := ⟨false, 0, 0, none, none⟩

/-- Result and side-effect trace of the HTML branch of _run. -/
structure HtmlStep where
  result : Except PyError String
  created : Nat
  leaked : Nat
  localPath : Option String

/-- The HTML branch of _run, src/main.py lines 113-140.  After encoding
resolution, NamedTemporaryFile(mode=w, suffix=.html, delete=False,
encoding=encoding, errors=replace) runs:
with an unknown codec name the io.open inside it raises LookupError, and
tempfile itself removes the file it had just created;
with encoding None the file opens under the locale default, then
content.decode(None, errors=replace) raises TypeError — the with-block exits
before the temp_file variable is assigned, so the finally clause at lines
137-140 does not unlink and the created file stays on disk;
with a known codec, decode and write succeed (errors=replace substitutes
every invalid sequence), temp_file is assigned, convert_local runs on the
path, and the finally clause unlinks the file whether conversion succeeded
or raised. -/
def htmlConvert (content_type : String) (detected : DetectOutcome)
    (codecOk : String → Bool) (conv : Converter) (tmpBase : String) : HtmlStep :=
  match resolveEncoding content_type detected with
  | some enc =>
    if codecOk enc then
      let name := tmpBase ++ ".html"
      match conv.convertLocal name with
      | .ok text => ⟨.ok text, 1, 0, some name⟩
      | .error e => ⟨.error (convErrToPy e), 1, 0, some name⟩
    else
      ⟨.error (.lookupError ("unknown encoding: " ++ enc)), 1, 0, none⟩
  | none =>
    ⟨.error (.typeError "decode() argument encoding must be str, not None"), 1, 1, none⟩

/-- The worker body _run, src/main.py lines 81-147: validate that the URL
has a netloc (raising ValueError before any network activity otherwise),
perform the fetch, raise_for_status, read the body in bounded chunks, then
branch on the declared content-type — the HTML branch decodes into a
temporary file and calls convert_local, every other type streams the raw
buffer into convert_stream. -/
def _run (decoded_url : String) (env : FetchEnv)
    (detect : List Byte → DetectOutcome) (codecOk : String → Bool)
    (conv : Converter) : Except PyError String × Trace :=
  if netlocOf decoded_url = "" then
    (.error (.valueError "Invalid URL: no domain specified"), emptyTrace)
  else
    match env.result with
    | .error m => (.error (.requestException m), ⟨true, 0, 0, none, none⟩)
    | .ok resp =>
      match resp.statusError with
      | some m => (.error (.requestException m), ⟨true, 0, 0, none, none⟩)
      | none =>
        match readContent resp.chunks [] with
        | .error m => (.error (.valueError m), ⟨true, 0, 0, none, none⟩)
        | .ok content =>
          let content_type := resp.contentTypeHeader.getD ""
          if pyContains content_type "text/html" then
            let step := htmlConvert content_type (detect content) codecOk conv env.tmpBase
            (step.result, ⟨true, step.created, step.leaked, step.localPath, none⟩)
          else
            match conv.convertStream content with
            | .ok text => (.ok text, ⟨true, 0, 0, none, some content⟩)
            | .error e => (.error (convErrToPy e), ⟨true, 0, 0, none, some content⟩)

/-- The asyncio.wait_for envelope at src/main.py line 153: when the
CONVERSION_TIMEOUT elapses first, TimeoutError is raised and the worker's
own result is discarded; otherwise the worker's result passes through. -/
def awaitWithTimeout (timedOut : Bool) (r : Except PyError String × Trace) :
    Except PyError String :=
  if timedOut then .error .timeoutError else r.1

/-- An HTTP reply: either a plain FastAPI Response or a raised HTTPException
with a status code and a detail message. -/
inductive Reply where
  | response (status : Nat) (body : String) (mediaType : String)
  | httpException (status : Nat) (detail : String)
  deriving Repr, DecidableEq

/-- The HTTP status code a reply carries. -/
def Reply.statusCode : Reply → Nat
  | .response s _ _ => s
  | .httpException s _ => s

/-- The except chain of convert_url, src/main.py lines 157-186, translating
each Python exception class into an HTTPException.  TypeError and
LookupError match none of the specific clauses and fall through to the
catch-all Exception clause mapping to 500. -/
def mapError : PyError → Reply
  | .unsupportedFormatException m => .httpException 415 ("Unsupported URL format: " ++ m)
  | .fileConversionException m => .httpException 400 ("URL conversion failed: " ++ m)
  | .timeoutError => .httpException 504 "Conversion timed out. Please try again later."
  | .requestException m => .httpException 502 ("Failed to fetch URL: " ++ m)
  | .valueError m => .httpException 400 m
  | .typeError m => .httpException 500 ("Internal server error: " ++ m)
  | .lookupError m => .httpException 500 ("Internal server error: " ++ m)
  | .otherException m => .httpException 500 ("Internal server error: " ++ m)

/-- Everything convert_url does after the empty-path and nuisance-path
short-circuits, src/main.py lines 67-186: normalize the URL, run the worker
under the conversion-timeout envelope, answer 200 text/plain on success and
map every exception class otherwise. -/
def pipeline (decoded_url : String) (timedOut : Bool) (env : FetchEnv)
    (detect : List Byte → DetectOutcome) (codecOk : String → Bool)
    (conv : Converter) : Reply × Trace :=
  let normalized := normalizeUrl decoded_url
  let r := _run normalized env detect codecOk conv
  match awaitWithTimeout timedOut r with
  | .ok text => (.response 200 text "text/plain", r.2)
  | .error e => (mapError e, r.2)

/-- The request handler convert_url, src/main.py lines 38-186.  Its inputs:
the raw path-plus-query string reassembled from the request, the
percent-decoder (urllib.parse.unquote) as an oracle, whether the 25-second
conversion envelope elapsed before the worker finished, and the fetch,
chardet, codec-table and converter oracles.  An empty raw path returns the
static welcome response; a decoded path equal to one of the three nuisance
names returns 404 Not Found; everything else enters the pipeline. -/
def convert_url (unquote : String → String) (raw : String) (timedOut : Bool)
    (env : FetchEnv) (detect : List Byte → DetectOutcome)
    (codecOk : String → Bool) (conv : Converter) : Reply × Trace :=
  if raw = "" then
    (.response 200 WELCOME_TEXT "text/plain", emptyTrace)
  else
    let decoded_url := unquote raw
    if decoded_url ∈ NUISANCE_PATHS then
      (.response 404 "Not Found" "text/plain", emptyTrace)
    else
      pipeline decoded_url timedOut env detect codecOk conv

/-- Extending the larger list on the right preserves the prefix test. -/
theorem isPrefixOf_append_left {l₁ l₂ : List Char} (r : List Char)
    (h : l₁.isPrefixOf l₂ = true) : l₁.isPrefixOf (l₂ ++ r) = true := by
  induction l₁ generalizing l₂ with
  | nil => simp
  | cons a t ih =>
    cases l₂ with
    | nil => simp at h
    | cons b bs =>
      rw [List.isPrefixOf_cons₂] at h
      rcases Bool.and_eq_true .. |>.mp h with ⟨hab, ht⟩
      simpa [List.isPrefixOf_cons₂, hab] using ih ht

/-- Appending to a string preserves every prefix it already has. -/
theorem pyStartsWith_append_left (p q s : String) (h : pyStartsWith q p = true) :
    pyStartsWith (q ++ s) p = true := by
  simp only [pyStartsWith, String.data_append] at h ⊢
  exact isPrefixOf_append_left s.data h

/-- Every normalized URL carries an explicit scheme, so netlocOf models
urlparse on exactly the strings the pipeline parses. -/
theorem normalizeUrl_has_scheme (s : String) :
    pyStartsWith (normalizeUrl s) "http://" = true ∨
    pyStartsWith (normalizeUrl s) "https://" = true := by
  unfold normalizeUrl
  by_cases h1 : pyStartsWith s "http://" = true
  · simp [h1]
  · by_cases h2 : pyStartsWith s "https://" = true
    · simp [h1, h2]
    · right
      by_cases h3 : pyStartsWith s "www." = true
      · simp [h1, h2, h3]
        exact pyStartsWith_append_left "https://" "https://" s (by decide)
      · simp [h1, h2, h3]
        exact pyStartsWith_append_left "https://" "https://www." s (by decide)

/-! ## Concrete oracles used to instantiate the theorems -/

/-- A concrete fetch environment: an HTML response declaring charset utf-8,
a 2xx status and a two-byte body. -/
def env0 : FetchEnv := ⟨.ok ⟨some "text/html; charset=utf-8", none, [[104, 105]]⟩, "tmp0"⟩

/-- A chardet oracle that always detects utf-8. -/
def detect0 : List Byte → DetectOutcome := fun _ => .returned (some "utf-8")

/-- A codec table that knows only utf-8. -/
def codecOk0 : String → Bool := fun e => e == "utf-8"

/-- A converter oracle that always succeeds. -/
def conv0 : Converter := ⟨fun _ => .ok "converted", fun _ => .ok "converted"⟩

/-! ## Claims -/

/-- C3: on every non-empty, non-nuisance decoded path, URL normalization is
the pure function of the spec: a string already beginning with http:// or
https:// is returned unchanged; otherwise https:// is prepended when it
begins with www., and https://www. otherwise. -/
theorem normalizeUrl_spec (s : String) (_hne : s ≠ "") (_hnu : s ∉ NUISANCE_PATHS) :
    ((pyStartsWith s "http://" || pyStartsWith s "https://") = true →
      normalizeUrl s = s) ∧
    ((pyStartsWith s "http://" || pyStartsWith s "https://") = false →
      (pyStartsWith s "www." = true → normalizeUrl s = "https://" ++ s) ∧
      (pyStartsWith s "www." = false → normalizeUrl s = "https://www." ++ s)) := by
  unfold normalizeUrl
  constructor
  · intro h; simp [h]
  · intro h
    constructor <;> intro h3 <;> simp [h, h3]

/-- Witness for normalizeUrl_spec at the spec's two worked examples. -/
theorem normalizeUrl_spec_witness :
    normalizeUrl "example.com/page" = "https://www.example.com/page" ∧
    normalizeUrl "www.example.com/page" = "https://www.example.com/page" := by
  constructor
  · exact ((normalizeUrl_spec "example.com/page" (by decide) (by decide)).2
      (by decide)).2 (by decide)
  · exact ((normalizeUrl_spec "www.example.com/page" (by decide) (by decide)).2
      (by decide)).1 (by decide)

/-- C6: an empty raw request path answers 200 with the static welcome text,
and a decoded path equal to favicon.ico, robots.txt or sitemap.xml answers
404 with body Not Found; both short-circuits leave the empty trace, whose
fetch flag is false, so no network call is made. -/
theorem empty_welcome_and_nuisance_404 (unquote : String → String) (raw : String)
    (timedOut : Bool) (env : FetchEnv) (detect : List Byte → DetectOutcome)
    (codecOk : String → Bool) (conv : Converter) :
    (raw = "" →
      convert_url unquote raw timedOut env detect codecOk conv =
        (.response 200 WELCOME_TEXT "text/plain", emptyTrace)) ∧
    (raw ≠ "" → unquote raw ∈ NUISANCE_PATHS →
      convert_url unquote raw timedOut env detect codecOk conv =
        (.response 404 "Not Found" "text/plain", emptyTrace)) ∧
    emptyTrace.fetchAttempted = false := by
  refine ⟨?_, ?_, rfl⟩
  · intro h; simp [convert_url, h]
  · intro h hm; simp [convert_url, h, hm]

/-- Witness for empty_welcome_and_nuisance_404 at the empty path and at
favicon.ico. -/
theorem empty_welcome_and_nuisance_404_witness :
    convert_url id "" false env0 detect0 codecOk0 conv0 =
      (.response 200 WELCOME_TEXT "text/plain", emptyTrace) ∧
    convert_url id "favicon.ico" false env0 detect0 codecOk0 conv0 =
      (.response 404 "Not Found" "text/plain", emptyTrace) := by
  constructor
  · exact (empty_welcome_and_nuisance_404 id "" false env0 detect0 codecOk0 conv0).1 rfl
  · exact (empty_welcome_and_nuisance_404 id "favicon.ico" false env0 detect0
      codecOk0 conv0).2.1 (by decide) (by decide)

/-- C10: the nuisance short-circuit applies only on exact equality with one
of the three names — every other decoded path enters the normalization and
fetch pipeline. -/
theorem nuisance_exact_match_only (unquote : String → String) (raw : String)
    (timedOut : Bool) (env : FetchEnv) (detect : List Byte → DetectOutcome)
    (codecOk : String → Bool) (conv : Converter)
    (h1 : raw ≠ "") (h2 : unquote raw ∉ NUISANCE_PATHS) :
    convert_url unquote raw timedOut env detect codecOk conv =
      pipeline (unquote raw) timedOut env detect codecOk conv := by
  simp [convert_url, h1, h2]

/-- Witness for nuisance_exact_match_only at a query-string variant and a
cased variant of favicon.ico; the first variant even reaches the network. -/
theorem nuisance_exact_match_only_witness :
    convert_url id "favicon.ico?v=1" false env0 detect0 codecOk0 conv0 =
      pipeline "favicon.ico?v=1" false env0 detect0 codecOk0 conv0 ∧
    convert_url id "Favicon.ico" false env0 detect0 codecOk0 conv0 =
      pipeline "Favicon.ico" false env0 detect0 codecOk0 conv0 ∧
    (convert_url id "favicon.ico?v=1" false env0 detect0 codecOk0 conv0).2.fetchAttempted
      = true := by
  refine ⟨?_, ?_, by decide⟩
  · exact nuisance_exact_match_only id "favicon.ico?v=1" false env0 detect0 codecOk0
      conv0 (by decide) (by decide)
  · exact nuisance_exact_match_only id "Favicon.ico" false env0 detect0 codecOk0
      conv0 (by decide) (by decide)

/-- C4: the CONVERSION_TIMEOUT envelope is 25 seconds and wraps the whole
worker (fetch, decode and conversion) as one unit: whenever it elapses, the
reply is the 504 timeout exception, whatever the fetch environment, the
detector, the codec table or the converter produced — the pipeline result is
discarded. -/
theorem timeout_envelope_504 (unquote : String → String) (raw : String)
    (env : FetchEnv) (detect : List Byte → DetectOutcome)
    (codecOk : String → Bool) (conv : Converter)
    (h1 : raw ≠ "") (h2 : unquote raw ∉ NUISANCE_PATHS) :
    (convert_url unquote raw true env detect codecOk conv).1 =
      .httpException 504 "Conversion timed out. Please try again later." ∧
    CONVERSION_TIMEOUT = 25 := by
  refine ⟨?_, rfl⟩
  simp [convert_url, h1, h2, pipeline, awaitWithTimeout, mapError]

/-- Witness for timeout_envelope_504 on a concrete request whose pipeline
would otherwise succeed. -/
theorem timeout_envelope_504_witness :
    (convert_url id "example.com" true env0 detect0 codecOk0 conv0).1 =
      .httpException 504 "Conversion timed out. Please try again later." ∧
    CONVERSION_TIMEOUT = 25 :=
  timeout_envelope_504 id "example.com" env0 detect0 codecOk0 conv0
    (by decide) (by decide)

/-- C5: when the normalized URL has no netloc, the reply is the 400
validation exception with the exact message of the source, the trace is
empty — the fetch oracle is never consulted, so the failure precedes any
network call. -/
theorem no_domain_validation_400 (unquote : String → String) (raw : String)
    (env : FetchEnv) (detect : List Byte → DetectOutcome)
    (codecOk : String → Bool) (conv : Converter)
    (h1 : raw ≠ "") (h2 : unquote raw ∉ NUISANCE_PATHS)
    (h3 : netlocOf (normalizeUrl (unquote raw)) = "") :
    convert_url unquote raw false env detect codecOk conv =
      (.httpException 400 "Invalid URL: no domain specified", emptyTrace) ∧
    emptyTrace.fetchAttempted = false := by
  refine ⟨?_, rfl⟩
  simp [convert_url, h1, h2, pipeline, _run, h3, awaitWithTimeout, mapError]

/-- Witness for no_domain_validation_400 at the bare scheme https://, whose
netloc is empty. -/
theorem no_domain_validation_400_witness :
    convert_url id "https://" false env0 detect0 codecOk0 conv0 =
      (.httpException 400 "Invalid URL: no domain specified", emptyTrace) ∧
    emptyTrace.fetchAttempted = false :=
  no_domain_validation_400 id "https://" env0 detect0 codecOk0 conv0
    (by decide) (by decide) (by decide)

/-- A buffer under the cap that reads to completion stays under the cap. -/
theorem readContent_ok_le (chunks : List Chunk) (acc content : List Byte)
    (hacc : acc.length ≤ MAX_CONTENT_SIZE)
    (h : readContent chunks acc = .ok content) :
    content.length ≤ MAX_CONTENT_SIZE := by
  induction chunks generalizing acc with
  | nil =>
    simp only [readContent, Except.ok.injEq] at h
    exact h ▸ hacc
  | cons c rest ih =>
    simp only [readContent] at h
    by_cases hc : (acc ++ c).length > MAX_CONTENT_SIZE
    · rw [if_pos hc] at h
      exact absurd h (by simp)
    · rw [if_neg hc] at h
      exact ih (acc ++ c) (Nat.le_of_not_lt hc) h

/-- When the stream carries more bytes than the cap allows on top of the
running buffer, the read loop raises the size-limit ValueError. -/
theorem readContent_exceeds (chunks : List Chunk) (acc : List Byte)
    (hacc : acc.length ≤ MAX_CONTENT_SIZE)
    (hbig : MAX_CONTENT_SIZE < acc.length + totalLen chunks) :
    readContent chunks acc = .error SIZE_LIMIT_MSG := by
  induction chunks generalizing acc with
  | nil =>
    simp only [totalLen, List.map_nil, List.sum_nil, Nat.add_zero] at hbig
    omega
  | cons c rest ih =>
    have hlen : (acc ++ c).length = acc.length + c.length := List.length_append acc c
    have htot : totalLen (c :: rest) = c.length + totalLen rest := by
      simp [totalLen]
    by_cases hc : (acc ++ c).length > MAX_CONTENT_SIZE
    · simp only [readContent]
      rw [if_pos hc]
    · simp only [readContent]
      rw [if_neg hc]
      exact ih (acc ++ c) (by omega) (by omega)

/-- An error hit inside a prefix of the stream decides the whole read:
the chunks behind it are never consumed. -/
theorem readContent_append_error (pre rest : List Chunk) (acc : List Byte) (m : String)
    (h : readContent pre acc = .error m) :
    readContent (pre ++ rest) acc = .error m := by
  induction pre generalizing acc with
  | nil => simp [readContent] at h
  | cons c t ih =>
    simp only [readContent, List.cons_append] at h ⊢
    by_cases hc : (acc ++ c).length > MAX_CONTENT_SIZE
    · rw [if_pos hc] at h ⊢
      exact h
    · rw [if_neg hc] at h ⊢
      exact ih (acc ++ c) h

/-- C7: the downloaded buffer never exceeds MAX_CONTENT_SIZE on any
successful read, and the moment a prefix of the stream accumulates more
than the limit the loop aborts with the size-limit error — whatever chunks
remain are never read, so the download does not complete. -/
theorem readContent_size_cap (chunks : List Chunk) :
    (∀ content, readContent chunks [] = .ok content →
      content.length ≤ MAX_CONTENT_SIZE) ∧
    (∀ pre rest, chunks = pre ++ rest → MAX_CONTENT_SIZE < totalLen pre →
      readContent chunks [] = .error SIZE_LIMIT_MSG) := by
  constructor
  · intro content h
    exact readContent_ok_le chunks [] content (by simp) h
  · rintro pre rest rfl hbig
    exact readContent_append_error pre rest [] SIZE_LIMIT_MSG
      (readContent_exceeds pre [] (by simp) (by simpa using hbig))

/-- Witness for readContent_size_cap: a first chunk one byte over the limit
aborts the read even though another chunk is still pending. -/
theorem readContent_size_cap_witness :
    readContent [List.replicate (MAX_CONTENT_SIZE + 1) 0, [7]] [] =
      .error SIZE_LIMIT_MSG := by
  refine (readContent_size_cap _).2 [List.replicate (MAX_CONTENT_SIZE + 1) 0] [[7]]
    rfl ?_
  simp only [totalLen, List.map_cons, List.map_nil, List.length_replicate,
    List.sum_cons, List.sum_nil]
  omega

/-- A fetch whose body streams one byte more than MAX_CONTENT_SIZE. -/
def oversizedEnv : FetchEnv :=
  ⟨.ok ⟨some "text/html", none, [List.replicate (MAX_CONTENT_SIZE + 1) 0]⟩, "tmp1"⟩

/-- An oversized stream, reached through the full request handler, yields
the 400 reply carrying the size-limit message. -/
theorem size_limit_400_aux (unquote : String → String) (raw : String)
    (env : FetchEnv) (detect : List Byte → DetectOutcome)
    (codecOk : String → Bool) (conv : Converter) (resp : FetchResponse)
    (h1 : raw ≠ "") (h2 : unquote raw ∉ NUISANCE_PATHS)
    (h3 : ¬ netlocOf (normalizeUrl (unquote raw)) = "")
    (he : env.result = .ok resp) (hs : resp.statusError = none)
    (hbig : MAX_CONTENT_SIZE < totalLen resp.chunks) :
    (convert_url unquote raw false env detect codecOk conv).1 =
      .httpException 400 SIZE_LIMIT_MSG := by
  have hrc : readContent resp.chunks [] = .error SIZE_LIMIT_MSG :=
    readContent_exceeds resp.chunks [] (by simp) (by simpa using hbig)
  simp [convert_url, h1, h2, pipeline, _run, h3, he, hs, hrc,
    awaitWithTimeout, mapError]

/-- C1 amended: a fetch whose stream carries more than MAX_CONTENT_SIZE
bytes aborts before completing the download and surfaces as the ValueError
class mapped to HTTP 400 with the size-limit message — never as a 200
response with truncated content, and not as the 502 fetch/transport
class. -/
theorem size_limit_maps_to_400 (unquote : String → String) (raw : String)
    (env : FetchEnv) (detect : List Byte → DetectOutcome)
    (codecOk : String → Bool) (conv : Converter) (resp : FetchResponse)
    (h1 : raw ≠ "") (h2 : unquote raw ∉ NUISANCE_PATHS)
    (h3 : ¬ netlocOf (normalizeUrl (unquote raw)) = "")
    (he : env.result = .ok resp) (hs : resp.statusError = none)
    (hbig : MAX_CONTENT_SIZE < totalLen resp.chunks) :
    (convert_url unquote raw false env detect codecOk conv).1 =
      .httpException 400 SIZE_LIMIT_MSG :=
  size_limit_400_aux unquote raw env detect codecOk conv resp h1 h2 h3 he hs hbig

/-- Witness for size_limit_maps_to_400 on a concrete oversized stream. -/
theorem size_limit_maps_to_400_witness :
    (convert_url id "www.big.example" false oversizedEnv detect0 codecOk0 conv0).1 =
      .httpException 400 SIZE_LIMIT_MSG := by
  refine size_limit_maps_to_400 id "www.big.example" oversizedEnv detect0 codecOk0
    conv0 ⟨some "text/html", none, [List.replicate (MAX_CONTENT_SIZE + 1) 0]⟩
    (by decide) (by decide) (by decide) rfl rfl ?_
  simp only [totalLen, List.map_cons, List.map_nil, List.length_replicate,
    List.sum_cons, List.sum_nil]
  omega

/-- C1 as stated fails on the code: at a response streaming one byte past
10 MiB the download is aborted, but the reply is the ValueError mapping with
status 400, not the 502 fetch/transport class the claim requires (and not a
200 either). -/
theorem size_limit_counterexample :
    (convert_url id "example.com" false oversizedEnv detect0 codecOk0 conv0).1 =
      .httpException 400 SIZE_LIMIT_MSG ∧
    (convert_url id "example.com" false oversizedEnv detect0 codecOk0 conv0).1.statusCode
      = 400 ∧
    ¬ (convert_url id "example.com" false oversizedEnv detect0 codecOk0 conv0).1.statusCode
      = 502 ∧
    ¬ (convert_url id "example.com" false oversizedEnv detect0 codecOk0 conv0).1.statusCode
      = 200 := by
  have h : (convert_url id "example.com" false oversizedEnv detect0 codecOk0 conv0).1 =
      .httpException 400 SIZE_LIMIT_MSG := by
    refine size_limit_400_aux id "example.com" oversizedEnv detect0 codecOk0 conv0
      ⟨some "text/html", none, [List.replicate (MAX_CONTENT_SIZE + 1) 0]⟩
      (by decide) (by decide) (by decide) rfl rfl ?_
    simp only [totalLen, List.map_cons, List.map_nil, List.length_replicate,
      List.sum_cons, List.sum_nil]
    omega
  refine ⟨h, ?_, ?_, ?_⟩ <;> rw [h] <;> decide

/-- The failing input for the encoding fallback and the temp-file guarantee:
an HTML response with no charset parameter and an empty body. -/
def htmlNoneEnv : FetchEnv := ⟨.ok ⟨some "text/html", none, []⟩, "tmp2"⟩

/-- A chardet oracle answering a dictionary whose encoding entry is None —
what chardet.detect returns on an empty or undetectable buffer. -/
def detectNone : List Byte → DetectOutcome := fun _ => .returned none

/-- C2 names the intent of the source (dict.get with a utf-8 default,
errors=replace everywhere) but the code slips: when the content-type has no
charset parameter and the detection dictionary carries encoding None, the
utf-8 default of dict.get never applies because the key is present, the
resolved encoding is None, content.decode raises TypeError, and the request
fails with 500 — a decoding-path failure the claim says can never happen. -/
theorem encoding_none_gives_500 :
    resolveEncoding "text/html" (.returned none) = none ∧
    (convert_url id "example.com" false htmlNoneEnv detectNone codecOk0 conv0).1 =
      .httpException 500
        "Internal server error: decode() argument encoding must be str, not None" ∧
    (convert_url id "example.com" false htmlNoneEnv detectNone codecOk0 conv0).1.statusCode
      = 500 := by
  refine ⟨rfl, by decide, by decide⟩

/-- C9 names the guarantee the try/finally of the source aims at, but the
code slips on one error path: with the resolved encoding None,
NamedTemporaryFile has already created the file when decode raises, the
temp_file variable is still None, and the finally clause does not unlink —
at the failing input one temporary file is created and one is left on
disk after the request completes. -/
theorem temp_file_leak_on_decode_error :
    (convert_url id "example.com" false htmlNoneEnv detectNone codecOk0 conv0).2.tempFilesCreated
      = 1 ∧
    (convert_url id "example.com" false htmlNoneEnv detectNone codecOk0 conv0).2.tempFilesLeaked
      = 1 := by
  refine ⟨by decide, by decide⟩

/-- C8 as stated fails on the code: at an input whose content-type contains
text/html, the decoded text is never handed to the file-path conversion API
(no local path is recorded and no conversion result is produced) because
the decode step raises first — yet a temporary file was created. -/
theorem html_routing_counterexample :
    pyContains ((⟨some "text/html", none, []⟩ : FetchResponse).contentTypeHeader.getD "")
      "text/html" = true ∧
    (convert_url id "example.com" false htmlNoneEnv detectNone codecOk0 conv0).2.localPath
      = none ∧
    (convert_url id "example.com" false htmlNoneEnv detectNone codecOk0 conv0).2.tempFilesCreated
      = 1 := by
  refine ⟨by decide, by decide, by decide⟩

/-- C8 amended: after a successful bounded read the decoder branches on the
declared content-type — when it contains text/html and the resolved
encoding is a codec Python knows, the decoded text is materialized as a
temporary file whose name carries the .html suffix and handed to
convert_local, with no stream call and no leaked file; when the resolved
encoding is None or an unknown codec name, the decode step raises before
any hand-off; for every other content-type the raw byte buffer is handed
directly to convert_stream and no temporary file is created. -/
theorem content_type_routing (unquote : String → String) (raw : String)
    (env : FetchEnv) (detect : List Byte → DetectOutcome)
    (codecOk : String → Bool) (conv : Converter) (resp : FetchResponse)
    (content : List Byte)
    (h1 : raw ≠ "") (h2 : unquote raw ∉ NUISANCE_PATHS)
    (h3 : ¬ netlocOf (normalizeUrl (unquote raw)) = "")
    (he : env.result = .ok resp) (hs : resp.statusError = none)
    (hrc : readContent resp.chunks [] = .ok content) :
    (pyContains (resp.contentTypeHeader.getD "") "text/html" = true →
      ∀ enc, resolveEncoding (resp.contentTypeHeader.getD "") (detect content) = some enc →
        codecOk enc = true →
        (convert_url unquote raw false env detect codecOk conv).2.localPath
            = some (env.tmpBase ++ ".html") ∧
        (convert_url unquote raw false env detect codecOk conv).2.tempFilesCreated = 1 ∧
        (convert_url unquote raw false env detect codecOk conv).2.tempFilesLeaked = 0 ∧
        (convert_url unquote raw false env detect codecOk conv).2.streamArg = none) ∧
    (pyContains (resp.contentTypeHeader.getD "") "text/html" = false →
      (convert_url unquote raw false env detect codecOk conv).2.streamArg = some content ∧
      (convert_url unquote raw false env detect codecOk conv).2.tempFilesCreated = 0 ∧
      (convert_url unquote raw false env detect codecOk conv).2.localPath = none) := by
  constructor
  · intro hct enc henc hcodec
    cases hcl : conv.convertLocal (env.tmpBase ++ ".html") <;>
      simp [convert_url, h1, h2, pipeline, _run, h3, he, hs, hrc, hct,
        htmlConvert, henc, hcodec, hcl, awaitWithTimeout]
  · intro hct
    cases hcs : conv.convertStream content <;>
      simp [convert_url, h1, h2, pipeline, _run, h3, he, hs, hrc, hct,
        awaitWithTimeout, hcs]

/-- A non-HTML fetch used to instantiate the streaming half of the routing
theorem. -/
def pdfEnv : FetchEnv := ⟨.ok ⟨some "application/pdf", none, [[1, 2, 3]]⟩, "tmp3"⟩

/-- Witness for content_type_routing: the HTML half at a charset-declaring
response, the stream half at a PDF response. -/
theorem content_type_routing_witness :
    ((convert_url id "example.com" false env0 detect0 codecOk0 conv0).2.localPath
        = some "tmp0.html" ∧
      (convert_url id "example.com" false env0 detect0 codecOk0 conv0).2.tempFilesCreated = 1 ∧
      (convert_url id "example.com" false env0 detect0 codecOk0 conv0).2.tempFilesLeaked = 0 ∧
      (convert_url id "example.com" false env0 detect0 codecOk0 conv0).2.streamArg = none) ∧
    ((convert_url id "example.com" false pdfEnv detect0 codecOk0 conv0).2.streamArg
        = some [1, 2, 3] ∧
      (convert_url id "example.com" false pdfEnv detect0 codecOk0 conv0).2.tempFilesCreated = 0 ∧
      (convert_url id "example.com" false pdfEnv detect0 codecOk0 conv0).2.localPath = none) := by
  constructor
  · exact (content_type_routing id "example.com" env0 detect0 codecOk0 conv0
      ⟨some "text/html; charset=utf-8", none, [[104, 105]]⟩ [104, 105]
      (by decide) (by decide) (by decide) rfl rfl rfl).1
      (by decide) "utf-8" (by decide) (by decide)
  · exact (content_type_routing id "example.com" pdfEnv detect0 codecOk0 conv0
      ⟨some "application/pdf", none, [[1, 2, 3]]⟩ [1, 2, 3]
      (by decide) (by decide) (by decide) rfl rfl rfl).2 (by decide)

end SiteToMarkdown
